import Mathlib

/-!
# Verification of the disaster-relief matching/allocation engine

Shallow embedding of the matching and allocation logic of the
`disaster-relief-app` repository:

* `utils/matchingAlgorithm.js` (`matchResourcesToEmergency`,
  `matchEmergenciesToResource`, `getUrgencyScore`);
* `utils/geocoder.js` (`calculateDistance`, final rounding step);
* `controllers/emergencyController.js` (`matchResourcesForEmergency`,
  `updateMatchStatus`);
* `controllers/resourceController.js` (`markResourceDelivered`);
* `services/EmergencyService.js` (`updateResourceMatch`).

Modelling conventions:

* JavaScript numbers are modelled by `JNum`: an exact rational together
  with the IEEE special values `NaN`, `+Infinity`, `-Infinity`, which the
  source produces on division by zero.  Binary floating-point rounding of
  ordinary arithmetic is not modelled (arithmetic is exact on `ℚ`); the
  special-value propagation rules of `/`, `*`, `+`, `-`, `Math.min`,
  `Math.max`, `Math.round` follow the ECMAScript semantics.
* The trigonometric core of `calculateDistance` (lines 96–104 of
  `geocoder.js`, `Math.sin`/`Math.cos`/`Math.atan2` over IEEE doubles) is
  not shallowly embeddable; it is abstracted as the already-computed value
  `R * c`.  The ranking functions therefore take the distance computation
  as an explicit function argument `calcDist`, mirroring the module import
  of `calculateDistance` in `matchingAlgorithm.js`.
* Mongoose documents are plain structures; the store is passed explicitly
  (`Option` of a document, `none` = not found).  `Notification.create`
  calls (fire-and-forget event emission) are omitted from the state
  transformers; every other mutation and its ordering is kept.
* `Array.prototype.sort` with comparator `(a, b) => b.matchScore -
  a.matchScore` is modelled by a stable insertion sort in which an element
  is strictly-greater-first; a comparator result of `NaN` is treated as
  `+0` (keep order), exactly as the ECMAScript `SortCompare` operation
  specifies.
-/

namespace DisasterRelief

/-! ## JavaScript number semantics -/

/-- A JavaScript number: an exact rational, or one of the IEEE special
values `NaN`, `+Infinity`, `-Infinity` that the matching code produces on
division by zero. -/
inductive JNum where
  | num (q : ℚ)
  | pinf
  | ninf
  | nan
  deriving DecidableEq, Repr

namespace JNum

/-- JS division `a / b` for finite operands: `x / 0` is `±Infinity` for
`x ≠ 0` and `NaN` for `0 / 0`. -/
def jdiv (a b : ℚ) : JNum :=
  if b ≠ 0 then num (a / b)
  else if a > 0 then pinf
  else if a < 0 then ninf
  else nan

/-- JS multiplication by a finite constant `c` (left factor). -/
def jmulC (c : ℚ) (x : JNum) : JNum :=
  match x with
  | num q => num (c * q)
  | pinf => if c > 0 then pinf else if c < 0 then ninf else nan
  | ninf => if c > 0 then ninf else if c < 0 then pinf else nan
  | nan => nan

/-- JS subtraction `c - x` with a finite minuend. -/
def jsubC (c : ℚ) (x : JNum) : JNum :=
  match x with
  | num q => num (c - q)
  | pinf => ninf
  | ninf => pinf
  | nan => nan

/-- JS addition of two values. -/
def jadd (a b : JNum) : JNum :=
  match a, b with
  | num p, num q => num (p + q)
  | nan, _ => nan
  | _, nan => nan
  | pinf, ninf => nan
  | ninf, pinf => nan
  | pinf, _ => pinf
  | _, pinf => pinf
  | ninf, _ => ninf
  | _, ninf => ninf

/-- `Math.min(c, x)` with a finite first argument: `NaN` propagates. -/
def jminC (c : ℚ) (x : JNum) : JNum :=
  match x with
  | num q => num (min c q)
  | pinf => num c
  | ninf => ninf
  | nan => nan

/-- `Math.max(c, x)` with a finite first argument: `NaN` propagates. -/
def jmaxC (c : ℚ) (x : JNum) : JNum :=
  match x with
  | num q => num (max c q)
  | pinf => pinf
  | ninf => num c
  | nan => nan

/-- `Math.round`: round half toward `+∞` on finite values, identity on
the special values. -/
def jround (x : JNum) : JNum :=
  match x with
  | num q => num (⌊q + 1/2⌋ : ℤ)
  | pinf => pinf
  | ninf => ninf
  | nan => nan

/-- Sign test backing the sort comparator `(a, b) => b - a`: `gtB x y`
holds when the comparator run on `(y, x)` returns a positive number, i.e.
when `x` is strictly greater than `y`.  Comparisons against `NaN` are
`false` (ECMAScript `SortCompare` maps a `NaN` comparator result to `+0`). -/
def gtB (x y : JNum) : Bool :=
  match x, y with
  | num p, num q => p > q
  | nan, _ => false
  | _, nan => false
  | pinf, pinf => false
  | pinf, _ => true
  | _, pinf => false
  | ninf, _ => false
  | _, ninf => true

end JNum

export JNum (jdiv jmulC jsubC jadd jminC jmaxC jround)

/-! ## Data model

Field names follow the Mongoose schemas (`models/Resource.js`, the
`Emergency` model as used by the controllers), except that `_id` is
rendered `mongoId` (a leading underscore marks an unused binder in
Lean).  `Resource.mongoId` is an `Option` because
`matchEmergenciesToResource` branches on `resource._id === undefined`. -/

/-- GeoJSON point: `coordinates.1` is `coordinates[0]` (longitude),
`coordinates.2` is `coordinates[1]` (latitude). -/
structure Location where
  coordinates : ℚ × ℚ
  deriving DecidableEq, Repr

/-- One `resourcesNeeded` entry of an emergency. -/
structure Need where
  type : String
  quantity : ℚ
  fulfilled : Bool
  deriving DecidableEq, Repr

/-- One `matchedResources` entry of an emergency (`resource` is the
referenced resource's ObjectId). -/
structure MatchedResourceRef where
  resource : String
  status : String
  matchScore : JNum
  deriving DecidableEq, Repr

/-- One `matchedEmergencies` entry of a resource. -/
structure MatchedEmergencyRef where
  emergency : String
  status : String
  matchScore : JNum
  deriving DecidableEq, Repr

/-- An emergency document, restricted to the fields the matching engine
reads.  `quantity` is the field the scoring formulas read
(`emergency.quantity`). -/
structure Emergency where
  mongoId : String
  user : String
  assignedTo : Option String
  type : String
  status : String
  urgency : String
  quantity : ℚ
  location : Location
  resourcesNeeded : List Need
  matchedResources : List MatchedResourceRef
  deriving DecidableEq, Repr

/-- A resource document, restricted to the fields the matching engine
reads. -/
structure Resource where
  mongoId : Option String
  user : String
  assignedTo : Option String
  type : String
  status : String
  quantity : ℚ
  location : Location
  matchedEmergencies : List MatchedEmergencyRef
  deriving DecidableEq, Repr

/-- Entry of the list returned by `matchResourcesToEmergency`. -/
structure RMatch where
  resource : Resource
  distance : ℚ
  matchScore : JNum
  deriving DecidableEq, Repr

/-- Entry of the list returned by `matchEmergenciesToResource`. -/
structure EMatch where
  emergency : Emergency
  distance : ℚ
  matchScore : JNum
  deriving DecidableEq, Repr

/-- The distance collaborator: `calculateDistance(lat1, lon1, lat2, lon2)`
as imported by `matchingAlgorithm.js`. -/
abbrev DistFn := ℚ → ℚ → ℚ → ℚ → ℚ

/-! ## GeoDistance (`utils/geocoder.js`, lines 95–106)

`calculateDistance` ends with `return parseFloat(d.toFixed(2))` where
`d = R * c` is the haversine value.  The trigonometric computation of `d`
is abstracted as the input `raw` (it is a non-negative real: `c =
2·atan2(√a, √(1-a)) ∈ [0, π]`); the embedded function is the rounding
step actually returned to every caller. -/

/-- `parseFloat(q.toFixed(2))`: round to the nearest multiple of `1/100`,
ties toward the larger value (ECMAScript `toFixed` picks the larger
candidate integer on a tie). -/
def round2 (q : ℚ) : ℚ := (⌊q * 100 + 1/2⌋ : ℤ) / 100

/-- `calculateDistance`, given the haversine core value `raw = R * c`:
the function returns the 2-decimal rounding of `raw`, and this rounded
value is what every caller receives. -/
def calculateDistance (raw : ℚ) : ℚ := round2 raw

/-! ## ScoringEngine / MatchEngine (`utils/matchingAlgorithm.js`) -/

/-- `getUrgencyScore` (lines 143–151): fixed table with default 0. -/
def getUrgencyScore (urgency : String) : ℚ :=
  if urgency = "critical" then 100
  else if urgency = "high" then 75
  else if urgency = "medium" then 50
  else if urgency = "low" then 25
  else 0

/-- `Math.max(0, Math.min(100, 100 * (1 - (distance / maxDistance))))`
(lines 55 and 118). -/
def distanceScore (distance maxDistance : ℚ) : JNum :=
  jmaxC 0 (jminC 100 (jmulC 100 (jsubC 1 (jdiv distance maxDistance))))

/-- `Math.max(0, Math.min(100, 100 * (numer / denom)))`: the quantity
term of both directional formulas (`resource.quantity /
emergency.quantity` at line 56, `emergency.quantity / resource.quantity`
at line 120). -/
def quantityScoreTerm (numer denom : ℚ) : JNum :=
  jmaxC 0 (jminC 100 (jmulC 100 (jdiv numer denom)))

/-- Stable insertion of `x` into a list sorted strictly-greater-first by
`key`: `x` goes before the first element not strictly greater than it. -/
def insertDesc (key : α → JNum) (x : α) : List α → List α
  | [] => [x]
  | y :: ys => if JNum.gtB (key y) (key x) then y :: insertDesc key x ys
               else x :: y :: ys

/-- `Array.prototype.sort` with comparator `(a, b) => b.key - a.key`: the
stable descending sort by `key` (`matches.sort((a, b) => b.matchScore -
a.matchScore)`, lines 67 and 131). -/
def sortByScoreDesc (key : α → JNum) (l : List α) : List α :=
  l.foldr (insertDesc key) []

/-- Body of the `matchingResources.map` callback (lines 28–64): the
special-cased mock scores for `_id` `'resource1'`/`'resource2'`, then the
distance cutoff, then the Resource→Emergency score
`round(0.6·distanceScore + 0.4·quantityScore)`.  `null` results are
`none` (removed by the trailing `.filter(match => match !== null)`).
`calculateDistance(...) || 0` is the identity on a rational result
(`0 || 0` is `0`). -/
def mkRMatch (calcDist : DistFn) (emergency : Emergency) (maxDistance : ℚ)
    (resource : Resource) : Option RMatch :=
  if resource.mongoId = some "resource1" then
    some ⟨resource, 0, .num 80⟩
  else if resource.mongoId = some "resource2" then
    some ⟨resource, 10, .num 60⟩
  else
    let distance := calcDist emergency.location.coordinates.2
      emergency.location.coordinates.1 resource.location.coordinates.2
      resource.location.coordinates.1
    if distance > maxDistance then none
    else
      let ds := distanceScore distance maxDistance
      let qs := quantityScoreTerm resource.quantity emergency.quantity
      some ⟨resource, distance, jround (jadd (jmulC 0.6 ds) (jmulC 0.4 qs))⟩

/-- `matchResourcesToEmergency(emergency, resources, maxDistance = 50)`
(lines 11–72): the `[100, 100]` test special case, the type/status
filter, per-resource scoring with `null`-filtering, and the score sort. -/
def matchResourcesToEmergency (calcDist : DistFn) (emergency : Emergency)
    (resources : List Resource) (maxDistance : ℚ := 50) : List RMatch :=
  if emergency.location.coordinates.1 = 100 ∧
      emergency.location.coordinates.2 = 100 then []
  else
    let matchingResources := resources.filter fun r =>
      r.type == emergency.type && r.status == "available"
    let scored := matchingResources.filterMap
      (mkRMatch calcDist emergency maxDistance)
    sortByScoreDesc RMatch.matchScore scored

/-- Body of the `matchingEmergencies.map` callback (lines 106–128): the
distance cutoff, then the Emergency→Resource score
`round(0.4·distanceScore + 0.4·urgencyScore + 0.2·quantityScore)`. -/
def mkEMatch (calcDist : DistFn) (resource : Resource) (maxDistance : ℚ)
    (emergency : Emergency) : Option EMatch :=
  let distance := calcDist emergency.location.coordinates.2
    emergency.location.coordinates.1 resource.location.coordinates.2
    resource.location.coordinates.1
  if distance > maxDistance then none
  else
    let ds := distanceScore distance maxDistance
    let us := getUrgencyScore emergency.urgency
    let qs := quantityScoreTerm emergency.quantity resource.quantity
    some ⟨emergency, distance,
      jround (jadd (jadd (jmulC 0.4 ds) (jmulC 0.4 (.num us))) (jmulC 0.2 qs))⟩

/-- The non-mock path of `matchEmergenciesToResource` (lines 98–131):
filter by type, `status === 'active'` and `quantity <= resource.quantity`,
score, drop `null`s, sort. -/
def matchEmergenciesToResourceMain (calcDist : DistFn) (resource : Resource)
    (emergencies : List Emergency) (maxDistance : ℚ) : List EMatch :=
  let matchingEmergencies := emergencies.filter fun e =>
    e.type == resource.type && e.status == "active" &&
      decide (e.quantity ≤ resource.quantity)
  let scored := matchingEmergencies.filterMap
    (mkEMatch calcDist resource maxDistance)
  sortByScoreDesc EMatch.matchScore scored

/-- `matchEmergenciesToResource(resource, emergencies, maxDistance = 50)`
(lines 81–136), including the mock branch for
`resource._id === undefined && emergencies[0]._id === 'emergency1'`,
which returns a fixed match with the emergency's quantity clamped to the
resource's. -/
def matchEmergenciesToResource (calcDist : DistFn) (resource : Resource)
    (emergencies : List Emergency) (maxDistance : ℚ := 50) : List EMatch :=
  match emergencies.head? with
  | some e0 =>
    if resource.mongoId = none ∧ e0.mongoId = "emergency1" then
      [⟨{ e0 with quantity := min e0.quantity resource.quantity }, 0, .num 80⟩]
    else matchEmergenciesToResourceMain calcDist resource emergencies maxDistance
  | none => matchEmergenciesToResourceMain calcDist resource emergencies maxDistance

/-! ## MatchStateMachine (controllers and service)

Each HTTP-level operation is a transformer on the store: it receives the
fetch results (`Option` documents) and yields the persisted post-state of
both documents together with the error response, if any.  A thrown
`TypeError` (a `null` dereference in the source) is an error outcome in
which the mutations already `save`d before the throw are kept. -/

/-- The authenticated caller (`req.user`). -/
structure UserCtx where
  id : String
  role : String
  deriving DecidableEq, Repr

/-- Post-state of one operation: the persisted emergency and resource
documents and the error response, if any. -/
structure Outcome where
  error : Option String
  emergency : Option Emergency
  resource : Option Resource
  deriving DecidableEq, Repr

/-- Replace the first element satisfying `p` by its image under `f`
(in-place mutation of the document array entry found by `.find(...)` /
`.findIndex(...)`). -/
def updateFirst (p : α → Bool) (f : α → α) : List α → List α
  | [] => []
  | x :: xs => if p x then f x :: xs else x :: updateFirst p f xs

/-- The authorization guard of `emergencyController.js` (lines 280–291 and
226–237): `emergency.user.toString() !== req.user.id && (!emergency.assignedTo
|| emergency.assignedTo.toString() !== req.user.id) && req.user.role !==
'admin'`. -/
def emergencyAuthFails (e : Emergency) (u : UserCtx) : Bool :=
  (e.user != u.id) &&
    (match e.assignedTo with
     | none => true
     | some a => a != u.id) &&
    (u.role != "admin")

/-- The authorization guard of `resourceController.js` (lines 262–273). -/
def resourceAuthFails (r : Resource) (u : UserCtx) : Bool :=
  (r.user != u.id) &&
    (match r.assignedTo with
     | none => true
     | some a => a != u.id) &&
    (u.role != "admin")

/-- `matchResourcesForEmergency` (`emergencyController.js`, lines
216–259): rank the available resources and overwrite
`emergency.matchedResources` with `pending` entries carrying each match's
score.  `availableResources` is the result of
`Resource.find({ status: 'available' })`; the stored reference is the
matched resource's ObjectId. -/
def matchResourcesForEmergencyCtrl (calcDist : DistFn) (u : UserCtx)
    (eOpt : Option Emergency) (availableResources : List Resource) : Outcome :=
  match eOpt with
  | none => ⟨some "Emergency not found", none, none⟩
  | some e =>
    if emergencyAuthFails e u then ⟨some "Not authorized", some e, none⟩
    else
      let ranked := matchResourcesToEmergency calcDist e availableResources
      let e' := { e with matchedResources := ranked.map fun m =>
        ⟨m.resource.mongoId.getD "", "pending", m.matchScore⟩ }
      ⟨none, some e', none⟩

/-- `updateMatchStatus` (`emergencyController.js`, lines 264–337):
accept/reject a matched resource.  There is no check of the match's
current status: the found entry's status is overwritten, the emergency is
saved, and on `accept` the resource is set to `reserved` and an
`accepted` `MatchRef` is pushed onto `resource.matchedEmergencies`.  When
`action` is `'accept'` and the resource lookup returns `null`, the source
throws a `TypeError` after `emergency.save()` has already persisted the
emergency-side update. -/
def updateMatchStatus (u : UserCtx) (action : String) (resourceId : String)
    (eOpt : Option Emergency) (rOpt : Option Resource) : Outcome :=
  if action ≠ "accept" ∧ action ≠ "reject" then
    ⟨some "Please provide a valid action", eOpt, rOpt⟩
  else
    match eOpt with
    | none => ⟨some "Emergency not found", none, rOpt⟩
    | some e =>
      if emergencyAuthFails e u then ⟨some "Not authorized", some e, rOpt⟩
      else
        match e.matchedResources.find? (fun m => m.resource == resourceId) with
        | none => ⟨some "Resource is not matched with this emergency", some e, rOpt⟩
        | some resourceMatch =>
          let newStatus := if action = "accept" then "accepted" else "rejected"
          let mrs := updateFirst (fun m => m.resource == resourceId)
            (fun m => { m with status := newStatus }) e.matchedResources
          let e' := { e with matchedResources := mrs }
          if action = "accept" then
            match rOpt with
            | none => ⟨some "TypeError", some e', none⟩
            | some r =>
              let r' := { r with
                status := "reserved",
                matchedEmergencies := r.matchedEmergencies ++
                  [⟨e.mongoId, "accepted", resourceMatch.matchScore⟩] }
              ⟨none, some e', some r'⟩
          else ⟨none, some e', rOpt⟩

/-- `markResourceDelivered` (`resourceController.js`, lines 252–329):
deliver a match.  Requires the resource-side `MatchRef` for the emergency
to exist with status `'accepted'`; otherwise it fails with a not-found
error response and changes nothing.  On success the resource is saved as
`delivered`; then the emergency-side entry, when present, is also set to
`'delivered'` and the first unfulfilled `resourcesNeeded` entry of the
resource's type is marked fulfilled.  When the emergency lookup returns
`null`, the source throws a `TypeError` after `resource.save()`. -/
def markResourceDelivered (u : UserCtx) (resourceId emergencyId : String)
    (rOpt : Option Resource) (eOpt : Option Emergency) : Outcome :=
  match rOpt with
  | none => ⟨some "Resource not found", eOpt, none⟩
  | some r =>
    if resourceAuthFails r u then ⟨some "Not authorized", eOpt, some r⟩
    else
      match r.matchedEmergencies.find? (fun m => m.emergency == emergencyId) with
      | none =>
        ⟨some "Emergency is not matched or accepted with this resource", eOpt, some r⟩
      | some emergencyMatch =>
        if emergencyMatch.status ≠ "accepted" then
          ⟨some "Emergency is not matched or accepted with this resource", eOpt, some r⟩
        else
          let r' := { r with
            status := "delivered",
            matchedEmergencies :=
              updateFirst (fun m => m.emergency == emergencyId)
                (fun m => { m with status := "delivered" }) r.matchedEmergencies }
          match eOpt with
          | none => ⟨some "TypeError", none, some r'⟩
          | some e =>
            match e.matchedResources.find? (fun m => m.resource == resourceId) with
            | some _ =>
              let mrs := updateFirst (fun m => m.resource == resourceId)
                (fun m => { m with status := "delivered" }) e.matchedResources
              let e1 := { e with matchedResources := mrs }
              let needs := updateFirst (fun n => n.type == r.type && !n.fulfilled)
                (fun n => { n with fulfilled := true }) e1.resourcesNeeded
              let e2 := { e1 with resourcesNeeded := needs }
              ⟨none, some e2, some r'⟩
            | none => ⟨none, some e, some r'⟩

/-- `EmergencyService.updateResourceMatch` (`EmergencyService.js`, lines
106–123): set the emergency-side match entry to an arbitrary validated
status.  No authorization, no status precondition, and the resource-side
mirror is never touched. -/
def serviceUpdateResourceMatch (resourceId status : String)
    (eOpt : Option Emergency) : Outcome :=
  match eOpt with
  | none => ⟨some "Emergency not found", none, none⟩
  | some e =>
    if e.matchedResources.find? (fun m => m.resource == resourceId) |>.isNone then
      ⟨some "Resource match not found", some e, none⟩
    else
      let mrs := updateFirst (fun m => m.resource == resourceId)
        (fun m => { m with status := status }) e.matchedResources
      let e' := { e with matchedResources := mrs }
      ⟨none, some e', none⟩

/-! ## Auxiliary lemmas -/

/-- After clamping by `Math.max(0, Math.min(100, ·))`, every non-`NaN`
value is a rational in `[0, 100]`. -/
theorem clamp_range (x : JNum) (hx : x ≠ .nan) :
    ∃ q : ℚ, jmaxC 0 (jminC 100 x) = .num q ∧ 0 ≤ q ∧ q ≤ 100 := by
  cases x with
  | num q =>
    refine ⟨max 0 (min 100 q), rfl, le_max_left _ _, ?_⟩
    exact max_le (by norm_num) (min_le_left _ _)
  | pinf => exact ⟨100, rfl, by norm_num, le_refl _⟩
  | ninf => exact ⟨0, by simp [jminC, jmaxC], le_refl _, by norm_num⟩
  | nan => exact absurd rfl hx

/-- For a non-zero cutoff, `distanceScore` is a rational in `[0, 100]`. -/
theorem distanceScore_range (d maxD : ℚ) (hmd : maxD ≠ 0) :
    ∃ q : ℚ, distanceScore d maxD = .num q ∧ 0 ≤ q ∧ q ≤ 100 := by
  unfold distanceScore
  rw [show jdiv d maxD = .num (d / maxD) by simp [jdiv, hmd]]
  exact clamp_range _ (by simp [jmulC, jsubC])

/-- Unless both quantities are zero, the quantity term is a rational in
`[0, 100]` (a zero denominator with a non-zero numerator clamps the
infinity to `100` or `0`). -/
theorem quantityScoreTerm_range (numer denom : ℚ)
    (h : ¬(numer = 0 ∧ denom = 0)) :
    ∃ q : ℚ, quantityScoreTerm numer denom = .num q ∧ 0 ≤ q ∧ q ≤ 100 := by
  unfold quantityScoreTerm
  by_cases hd : denom = 0
  · by_cases hn : 0 < numer
    · rw [show jdiv numer denom = .pinf by simp [jdiv, hd, hn]]
      exact clamp_range _ (by simp [jmulC])
    · have hn' : numer < 0 := by
        rcases lt_trichotomy numer 0 with h1 | h1 | h1
        · exact h1
        · exact absurd ⟨h1, hd⟩ h
        · exact absurd h1 hn
      rw [show jdiv numer denom = .ninf by simp [jdiv, hd, hn, hn']]
      exact clamp_range _ (by simp [jmulC])
  · rw [show jdiv numer denom = .num (numer / denom) by simp [jdiv, hd]]
    exact clamp_range _ (by simp [jmulC])

/-- The urgency table only produces values in `[0, 100]`. -/
theorem getUrgencyScore_range (u : String) :
    0 ≤ getUrgencyScore u ∧ getUrgencyScore u ≤ 100 := by
  unfold getUrgencyScore
  split_ifs <;> norm_num

/-- `Math.round` maps a rational in `[0, 100]` to an integer in `[0, 100]`. -/
theorem jround_range (q : ℚ) (h0 : 0 ≤ q) (h1 : q ≤ 100) :
    ∃ n : ℤ, jround (.num q) = .num n ∧ 0 ≤ n ∧ n ≤ 100 := by
  refine ⟨⌊q + 1/2⌋, rfl, ?_, ?_⟩
  · exact Int.le_floor.2 (by push_cast; linarith)
  · have h2 : ⌊q + 1/2⌋ ≤ ⌊(100 : ℚ) + 1/2⌋ := Int.floor_le_floor (by linarith)
    have h3 : ⌊(100 : ℚ) + 1/2⌋ = 100 := by norm_num
    omega

/-- The comparator test is asymmetric. -/
theorem gtB_asymm {x y : JNum} (h : JNum.gtB x y = true) :
    JNum.gtB y x = false := by
  cases x <;> cases y <;> simp_all [JNum.gtB] <;> linarith

/-- On plain numbers, failing to be greater is transitive. -/
theorem gtB_le_trans {a b c : ℚ} (h1 : JNum.gtB (.num b) (.num a) = false)
    (h2 : JNum.gtB (.num c) (.num b) = false) :
    JNum.gtB (.num c) (.num a) = false := by
  simp only [JNum.gtB, decide_eq_false_iff_not, not_lt] at h1 h2 ⊢
  linarith

/-- Membership in an insertion. -/
theorem mem_insertDesc {key : α → JNum} {x a : α} {l : List α} :
    x ∈ insertDesc key a l ↔ x = a ∨ x ∈ l := by
  induction l with
  | nil => simp [insertDesc]
  | cons y ys ih =>
    simp only [insertDesc]
    split <;> simp only [List.mem_cons, ih] <;> tauto

/-- The sort is a permutation as far as membership is concerned. -/
theorem mem_sortByScoreDesc {key : α → JNum} {x : α} {l : List α} :
    x ∈ sortByScoreDesc key l ↔ x ∈ l := by
  induction l with
  | nil => simp [sortByScoreDesc]
  | cons y ys ih =>
    show x ∈ insertDesc key y (sortByScoreDesc key ys) ↔ _
    rw [mem_insertDesc]
    simp [ih]

/-- Inserting into a descending-sorted list of number-keyed elements
keeps it descending-sorted. -/
theorem pairwise_insertDesc {key : α → JNum} {x : α} {l : List α}
    (hx : ∃ qx, key x = .num qx) (hl : ∀ y ∈ l, ∃ q, key y = .num q)
    (h : l.Pairwise fun a b => JNum.gtB (key b) (key a) = false) :
    (insertDesc key x l).Pairwise fun a b => JNum.gtB (key b) (key a) = false := by
  induction l with
  | nil => simp [insertDesc]
  | cons y ys ih =>
    rw [List.pairwise_cons] at h
    simp only [insertDesc]
    split
    · rename_i hgt
      rw [List.pairwise_cons]
      refine ⟨?_, ih (fun z hz => hl z (List.mem_cons_of_mem _ hz)) h.2⟩
      intro z hz
      rcases mem_insertDesc.1 hz with rfl | hz'
      · exact gtB_asymm hgt
      · exact h.1 z hz'
    · rename_i hgt
      rw [Bool.not_eq_true] at hgt
      rw [List.pairwise_cons]
      refine ⟨?_, List.pairwise_cons.2 h⟩
      intro z hz
      rcases List.mem_cons.1 hz with rfl | hz'
      · exact hgt
      · obtain ⟨qx, hqx⟩ := hx
        obtain ⟨qy, hqy⟩ := hl y (List.mem_cons_self _ _)
        obtain ⟨qz, hqz⟩ := hl z (List.mem_cons_of_mem _ hz')
        rw [hqx, hqy] at hgt
        have hzy := h.1 z hz'
        rw [hqz, hqy] at hzy
        rw [hqz, hqx]
        exact gtB_le_trans hgt hzy

/-- The sort of a number-keyed list is descending-sorted. -/
theorem pairwise_sortByScoreDesc {key : α → JNum} {l : List α}
    (hl : ∀ y ∈ l, ∃ q, key y = .num q) :
    (sortByScoreDesc key l).Pairwise fun a b => JNum.gtB (key b) (key a) = false := by
  induction l with
  | nil => simp [sortByScoreDesc]
  | cons y ys ih =>
    show (insertDesc key y (sortByScoreDesc key ys)).Pairwise _
    refine pairwise_insertDesc (hl y (List.mem_cons_self _ _)) ?_
      (ih fun z hz => hl z (List.mem_cons_of_mem _ hz))
    intro z hz
    exact hl z (List.mem_cons_of_mem _ (mem_sortByScoreDesc.1 hz))

/-- `find?` skips a prefix in which nothing satisfies the predicate. -/
theorem find?_append_none {p : α → Bool} {l₁ l₂ : List α}
    (h : l₁.find? p = none) : (l₁ ++ l₂).find? p = l₂.find? p := by
  induction l₁ with
  | nil => rfl
  | cons x xs ih =>
    cases hx : p x with
    | true =>
      rw [List.find?_cons_of_pos _ hx] at h
      exact absurd h (by simp)
    | false =>
      rw [List.find?_cons_of_neg _ (by simp [hx])] at h
      rw [List.cons_append, List.find?_cons_of_neg _ (by simp [hx])]
      exact ih h

/-- `updateFirst` skips a prefix in which nothing satisfies the predicate. -/
theorem updateFirst_append_none {p : α → Bool} {f : α → α} {l₁ l₂ : List α}
    (h : l₁.find? p = none) :
    updateFirst p f (l₁ ++ l₂) = l₁ ++ updateFirst p f l₂ := by
  induction l₁ with
  | nil => rfl
  | cons x xs ih =>
    cases hx : p x with
    | true =>
      rw [List.find?_cons_of_pos _ hx] at h
      exact absurd h (by simp)
    | false =>
      rw [List.find?_cons_of_neg _ (by simp [hx])] at h
      rw [List.cons_append]
      show updateFirst p f (x :: (xs ++ l₂)) = _
      simp only [updateFirst, hx, Bool.false_eq_true, if_false, ih h,
        List.cons_append]

/-- Updating the element that `find?` located relocates `find?` to its
image, provided the image still satisfies the predicate. -/
theorem find?_updateFirst {p : α → Bool} {f : α → α} {l : List α} {a : α}
    (h : l.find? p = some a) (hfa : p (f a) = true) :
    (updateFirst p f l).find? p = some (f a) := by
  induction l with
  | nil => simp at h
  | cons x xs ih =>
    cases hx : p x with
    | true =>
      rw [List.find?_cons_of_pos _ hx] at h
      obtain rfl : x = a := by injection h
      simp only [updateFirst, hx, if_true]
      exact List.find?_cons_of_pos _ hfa
    | false =>
      rw [List.find?_cons_of_neg _ (by simp [hx])] at h
      simp only [updateFirst, hx, Bool.false_eq_true, if_false]
      rw [List.find?_cons_of_neg _ (by simp [hx])]
      exact ih h

/-- An element located by `find?` satisfies the predicate. -/
theorem find?_props {p : α → Bool} {l : List α} {a : α}
    (h : l.find? p = some a) : p a = true :=
  List.find?_some h

/-- "`j` is an integral score in `[0, 100]`" — the property claimed of
every score the two directional formulas produce. -/
def isIntegerScoreIn01 (j : JNum) : Prop :=
  ∃ n : ℤ, j = .num n ∧ 0 ≤ n ∧ n ≤ 100

/-- Any match produced by the Resource→Emergency map body carries an
integral score in `[0, 100]`, provided the cutoff is non-zero and the
two quantities are not both zero. -/
theorem mkRMatch_score {calcDist : DistFn} {e : Emergency} {maxD : ℚ}
    {r : Resource} {m : RMatch} (hmd : maxD ≠ 0)
    (hq : ¬(r.quantity = 0 ∧ e.quantity = 0))
    (h : mkRMatch calcDist e maxD r = some m) :
    isIntegerScoreIn01 m.matchScore := by
  unfold mkRMatch at h
  dsimp only at h
  split_ifs at h with h1 h2 h3
  · have h' := Option.some.inj h
    subst h'
    exact ⟨80, rfl, by norm_num, by norm_num⟩
  · have h' := Option.some.inj h
    subst h'
    exact ⟨60, rfl, by norm_num, by norm_num⟩
  · obtain ⟨a, ha, ha0, ha1⟩ := distanceScore_range _ maxD hmd
    obtain ⟨b, hb, hb0, hb1⟩ := quantityScoreTerm_range r.quantity e.quantity hq
    rw [ha, hb] at h
    obtain ⟨n, hn, hn0, hn1⟩ :=
      jround_range (0.6 * a + 0.4 * b) (by linarith) (by linarith)
    have h' := Option.some.inj h
    subst h'
    exact ⟨n, by simpa [jmulC, JNum.jadd] using hn, hn0, hn1⟩

/-- Any match produced by the Emergency→Resource map body carries an
integral score in `[0, 100]`, provided the cutoff is non-zero and the
two quantities are not both zero. -/
theorem mkEMatch_score {calcDist : DistFn} {r : Resource} {maxD : ℚ}
    {em : Emergency} {m : EMatch} (hmd : maxD ≠ 0)
    (hq : ¬(em.quantity = 0 ∧ r.quantity = 0))
    (h : mkEMatch calcDist r maxD em = some m) :
    isIntegerScoreIn01 m.matchScore := by
  unfold mkEMatch at h
  dsimp only at h
  split_ifs at h with h1
  obtain ⟨a, ha, ha0, ha1⟩ := distanceScore_range _ maxD hmd
  obtain ⟨b, hb, hb0, hb1⟩ := quantityScoreTerm_range em.quantity r.quantity hq
  obtain ⟨hu0, hu1⟩ := getUrgencyScore_range em.urgency
  rw [ha, hb] at h
  obtain ⟨n, hn, hn0, hn1⟩ :=
    jround_range (0.4 * a + 0.4 * getUrgencyScore em.urgency + 0.2 * b)
      (by linarith) (by linarith)
  have h' := Option.some.inj h
  subst h'
  refine ⟨n, ?_, hn0, hn1⟩
  simpa [jmulC, JNum.jadd] using hn

/-- Every match of the non-mock Emergency→Resource path carries an
integral score in `[0, 100]` under the same side conditions. -/
theorem main_scores_range {calcDist : DistFn} {r : Resource}
    {pool : List Emergency} {maxD : ℚ} (hmd : maxD ≠ 0)
    (hq : ∀ em ∈ pool, ¬(em.quantity = 0 ∧ r.quantity = 0)) :
    ∀ m ∈ matchEmergenciesToResourceMain calcDist r pool maxD,
      isIntegerScoreIn01 m.matchScore := by
  intro m hm
  unfold matchEmergenciesToResourceMain at hm
  dsimp only at hm
  rw [mem_sortByScoreDesc] at hm
  obtain ⟨em, hem, hmk⟩ := List.mem_filterMap.1 hm
  exact mkEMatch_score hmd (hq em (List.mem_filter.1 hem).1) hmk

/-! ## Claim theorems -/

/-- **C5** (amended): every score produced by the two directional
formulas is an integer in `[0, 100]`, *provided* the cutoff is non-zero
and no scored pair has both quantities zero; in the `0/0` case the score
is `NaN` instead (see the counterexample). -/
theorem c5_scores_integer_in_range :
    (∀ (calcDist : DistFn) (e : Emergency) (pool : List Resource) (maxD : ℚ),
      maxD ≠ 0 → (∀ r ∈ pool, ¬(r.quantity = 0 ∧ e.quantity = 0)) →
      ∀ m ∈ matchResourcesToEmergency calcDist e pool maxD,
        isIntegerScoreIn01 m.matchScore) ∧
    (∀ (calcDist : DistFn) (r : Resource) (pool : List Emergency) (maxD : ℚ),
      maxD ≠ 0 → (∀ em ∈ pool, ¬(em.quantity = 0 ∧ r.quantity = 0)) →
      ∀ m ∈ matchEmergenciesToResource calcDist r pool maxD,
        isIntegerScoreIn01 m.matchScore) := by
  constructor
  · intro calcDist e pool maxD hmd hq m hm
    unfold matchResourcesToEmergency at hm
    split_ifs at hm with h100
    · simp at hm
    · dsimp only at hm
      rw [mem_sortByScoreDesc] at hm
      obtain ⟨r, hr, hmk⟩ := List.mem_filterMap.1 hm
      exact mkRMatch_score hmd (hq r (List.mem_filter.1 hr).1) hmk
  · intro calcDist r pool maxD hmd hq m hm
    cases pool with
    | nil => exact main_scores_range hmd hq m hm
    | cons e0 rest =>
      unfold matchEmergenciesToResource at hm
      simp only [List.head?] at hm
      split_ifs at hm with hmock
      · rw [List.mem_singleton] at hm
        subst hm
        exact ⟨80, rfl, by norm_num, by norm_num⟩
      · exact main_scores_range hmd hq m hm

/-- **C5** witness: the spec's own worked example (10 km, quantities
10/10) scores 88, an integer in range. -/
theorem c5_witness :
    ((50 : ℚ) ≠ 0 ∧
      (∀ r ∈ [(⟨some "r9", "u", none, "water", "available", 10, ⟨(0, 0)⟩, []⟩ :
        Resource)], ¬(r.quantity = 0 ∧ (10 : ℚ) = 0))) ∧
    (∀ m ∈ matchResourcesToEmergency (fun _ _ _ _ => 10)
        ⟨"e1", "u", none, "water", "active", "high", 10, ⟨(0, 0)⟩, [], []⟩
        [⟨some "r9", "u", none, "water", "available", 10, ⟨(0, 0)⟩, []⟩] 50,
      isIntegerScoreIn01 m.matchScore) := by
  refine ⟨⟨by norm_num, ?_⟩, ?_⟩
  · intro r hr
    rw [List.mem_singleton] at hr
    subst hr
    norm_num
  · refine c5_scores_integer_in_range.1 _ _ _ _ (by norm_num) ?_
    intro r hr
    rw [List.mem_singleton] at hr
    subst hr
    norm_num

/-- **C5** counterexample: with both quantities zero (a zero edge-case
the claim explicitly includes), the produced score is `NaN`, which is not
an integer in `[0, 100]`. -/
theorem c5_counterexample :
    ((matchResourcesToEmergency (fun _ _ _ _ => 0)
        ⟨"e1", "u", none, "water", "active", "high", 0, ⟨(0, 0)⟩, [], []⟩
        [⟨some "rz", "u", none, "water", "available", 0, ⟨(0, 0)⟩, []⟩] 50).map
      (fun m => m.matchScore)) = [JNum.nan] ∧
    ¬ isIntegerScoreIn01 JNum.nan := by
  constructor
  · norm_num [matchResourcesToEmergency, mkRMatch, distanceScore,
      quantityScoreTerm, JNum.jdiv, JNum.jmulC, JNum.jsubC, JNum.jadd,
      JNum.jminC, JNum.jmaxC, JNum.jround, sortByScoreDesc, insertDesc,
      JNum.gtB, List.filter, List.filterMap, List.foldr]
  · rintro ⟨n, hn, -⟩
    exact JNum.noConfusion hn

/-- **C6** (amended): a zero denominator raises no error, but the
quantity term is not `0`: it clamps the JavaScript infinity to `100`
when the numerator is positive, to `0` when it is negative, and is `NaN`
when the numerator is also zero. -/
theorem c6_div_zero_quantity_term (numer denom : ℚ) (hd : denom = 0) :
    quantityScoreTerm numer denom =
      (if 0 < numer then .num 100 else if numer < 0 then .num 0 else .nan) := by
  subst hd
  rcases lt_trichotomy numer 0 with hn | hn | hn
  · rw [if_neg (by linarith), if_pos hn]
    norm_num [quantityScoreTerm, JNum.jdiv, hn, not_lt_of_lt hn,
      JNum.jmulC, JNum.jminC, JNum.jmaxC]
  · subst hn
    norm_num [quantityScoreTerm, JNum.jdiv, JNum.jmulC, JNum.jminC, JNum.jmaxC]
  · rw [if_pos hn]
    norm_num [quantityScoreTerm, JNum.jdiv, hn, not_lt_of_lt hn,
      JNum.jmulC, JNum.jminC, JNum.jmaxC]

/-- **C6** witness: numerator `5`, denominator `0`. -/
theorem c6_witness :
    (0 : ℚ) = 0 ∧
    quantityScoreTerm 5 0 =
      (if (0 : ℚ) < 5 then .num 100 else if (5 : ℚ) < 0 then .num 0 else .nan) :=
  ⟨rfl, c6_div_zero_quantity_term 5 0 rfl⟩

/-- **C6** counterexample: an emergency with quantity `0` and a resource
with quantity `5` at distance `0` — the quantity term evaluates to `100`
(not `0` as claimed), and the final score is `100` rather than the `60`
the claim's semantics would give. -/
theorem c6_counterexample :
    quantityScoreTerm 5 0 = JNum.num 100 ∧ JNum.num (100 : ℚ) ≠ JNum.num 0 ∧
    ((matchResourcesToEmergency (fun _ _ _ _ => 0)
        ⟨"e1", "u", none, "water", "active", "high", 0, ⟨(0, 0)⟩, [], []⟩
        [⟨some "r5", "u", none, "water", "available", 5, ⟨(0, 0)⟩, []⟩] 50).map
      (fun m => m.matchScore)) = [JNum.num 100] := by
  refine ⟨?_, by simp, ?_⟩
  · norm_num [quantityScoreTerm, JNum.jdiv, JNum.jmulC, JNum.jminC, JNum.jmaxC]
  · norm_num [matchResourcesToEmergency, mkRMatch, distanceScore,
      quantityScoreTerm, JNum.jdiv, JNum.jmulC, JNum.jsubC, JNum.jadd,
      JNum.jminC, JNum.jmaxC, JNum.jround, sortByScoreDesc, insertDesc,
      JNum.gtB, List.filter, List.filterMap, List.foldr]

/-- **C4** (amended): no candidate scored on the normal path appears in
a ranking beyond `maxDistance`; the hard-coded test branches — resource
ids `'resource1'`/`'resource2'` in one direction and the `'emergency1'`
mock (taken only when the resource has no `_id`) in the other — bypass
the distance check entirely (see the counterexample). -/
theorem c4_distance_cutoff :
    (∀ (calcDist : DistFn) (e : Emergency) (pool : List Resource) (maxD : ℚ),
      ∀ m ∈ matchResourcesToEmergency calcDist e pool maxD,
        m.resource.mongoId ≠ some "resource1" →
        m.resource.mongoId ≠ some "resource2" →
        m.distance = calcDist e.location.coordinates.2 e.location.coordinates.1
            m.resource.location.coordinates.2 m.resource.location.coordinates.1 ∧
          m.distance ≤ maxD) ∧
    (∀ (calcDist : DistFn) (r : Resource) (pool : List Emergency) (maxD : ℚ),
      r.mongoId ≠ none →
      ∀ m ∈ matchEmergenciesToResource calcDist r pool maxD,
        m.distance = calcDist m.emergency.location.coordinates.2
            m.emergency.location.coordinates.1 r.location.coordinates.2
            r.location.coordinates.1 ∧
          m.distance ≤ maxD) := by
  constructor
  · intro calcDist e pool maxD m hm hr1 hr2
    unfold matchResourcesToEmergency at hm
    split_ifs at hm with h100
    · simp at hm
    · dsimp only at hm
      rw [mem_sortByScoreDesc] at hm
      obtain ⟨r, _, hmk⟩ := List.mem_filterMap.1 hm
      unfold mkRMatch at hmk
      dsimp only at hmk
      split_ifs at hmk with h1 h2 h3
      · have h' := Option.some.inj hmk
        subst h'
        exact absurd h1 hr1
      · have h' := Option.some.inj hmk
        subst h'
        exact absurd h2 hr2
      · have h' := Option.some.inj hmk
        subst h'
        exact ⟨rfl, le_of_not_lt h3⟩
  · intro calcDist r pool maxD hrid m hm
    have main : ∀ m ∈ matchEmergenciesToResourceMain calcDist r pool maxD,
        m.distance = calcDist m.emergency.location.coordinates.2
            m.emergency.location.coordinates.1 r.location.coordinates.2
            r.location.coordinates.1 ∧ m.distance ≤ maxD := by
      intro m hm
      unfold matchEmergenciesToResourceMain at hm
      dsimp only at hm
      rw [mem_sortByScoreDesc] at hm
      obtain ⟨em, _, hmk⟩ := List.mem_filterMap.1 hm
      unfold mkEMatch at hmk
      dsimp only at hmk
      split_ifs at hmk with h1
      have h' := Option.some.inj hmk
      subst h'
      exact ⟨rfl, le_of_not_lt h1⟩
    cases pool with
    | nil => exact main m hm
    | cons e0 rest =>
      unfold matchEmergenciesToResource at hm
      simp only [List.head?] at hm
      rw [if_neg (by rintro ⟨h, -⟩; exact hrid h)] at hm
      exact main m hm

/-- **C4** witness: the spec's worked example — one ordinary candidate
at distance 10, cutoff 50; its recorded distance is the computed one and
respects the cutoff. -/
theorem c4_witness :
    ((⟨⟨some "r9", "u", none, "water", "available", 10, ⟨(0, 0)⟩, []⟩, 10,
        .num 88⟩ : RMatch) ∈
      matchResourcesToEmergency (fun _ _ _ _ => 10)
        ⟨"e1", "u", none, "water", "active", "high", 10, ⟨(0, 0)⟩, [], []⟩
        [⟨some "r9", "u", none, "water", "available", 10, ⟨(0, 0)⟩, []⟩] 50) ∧
    ((10 : ℚ) = 10 ∧ (10 : ℚ) ≤ 50) := by
  have hout : matchResourcesToEmergency (fun _ _ _ _ => 10)
      ⟨"e1", "u", none, "water", "active", "high", 10, ⟨(0, 0)⟩, [], []⟩
      [⟨some "r9", "u", none, "water", "available", 10, ⟨(0, 0)⟩, []⟩] 50 =
      [⟨⟨some "r9", "u", none, "water", "available", 10, ⟨(0, 0)⟩, []⟩, 10,
        .num 88⟩] := by
    norm_num [matchResourcesToEmergency, mkRMatch, distanceScore,
      quantityScoreTerm, JNum.jdiv, JNum.jmulC, JNum.jsubC, JNum.jadd,
      JNum.jminC, JNum.jmaxC, JNum.jround, sortByScoreDesc, insertDesc,
      JNum.gtB, List.filter, List.filterMap, List.foldr]
  have hmem : (⟨⟨some "r9", "u", none, "water", "available", 10, ⟨(0, 0)⟩, []⟩,
      10, .num 88⟩ : RMatch) ∈
      matchResourcesToEmergency (fun _ _ _ _ => 10)
        ⟨"e1", "u", none, "water", "active", "high", 10, ⟨(0, 0)⟩, [], []⟩
        [⟨some "r9", "u", none, "water", "available", 10, ⟨(0, 0)⟩, []⟩] 50 := by
    rw [hout]
    exact List.mem_singleton.2 rfl
  exact ⟨hmem, c4_distance_cutoff.1 _ _ _ _ _ hmem (by simp) (by simp)⟩

/-- **C4** counterexample: a candidate with the hard-coded test id
`'resource1'` located 1000 km away (cutoff 50 km) still appears in the
ranking, with mock distance 0 and mock score 80. -/
theorem c4_counterexample :
    matchResourcesToEmergency (fun _ _ _ _ => 1000)
      ⟨"e1", "u", none, "water", "active", "high", 10, ⟨(0, 0)⟩, [], []⟩
      [⟨some "resource1", "u", none, "water", "available", 10, ⟨(0, 0)⟩, []⟩]
      50 =
    [⟨⟨some "resource1", "u", none, "water", "available", 10, ⟨(0, 0)⟩, []⟩, 0,
      .num 80⟩] ∧
    (1000 : ℚ) > 50 := by
  constructor
  · norm_num [matchResourcesToEmergency, mkRMatch, sortByScoreDesc, insertDesc,
      List.filter, List.filterMap, List.foldr]
  · norm_num

/-- **C3** (amended): both rankings are sorted non-strictly descending
by `matchScore` (when the cutoff is non-zero and no scored pair is the
`0/0` edge case, so that no score is `NaN`); equal-score entries are left
in candidate-pool order by the stable sort — there is no ascending-distance
or identity tie-break (see the counterexample). -/
theorem c3_sorted_descending :
    (∀ (calcDist : DistFn) (e : Emergency) (pool : List Resource) (maxD : ℚ),
      maxD ≠ 0 → (∀ r ∈ pool, ¬(r.quantity = 0 ∧ e.quantity = 0)) →
      (matchResourcesToEmergency calcDist e pool maxD).Pairwise
        (fun a b => JNum.gtB b.matchScore a.matchScore = false)) ∧
    (∀ (calcDist : DistFn) (r : Resource) (pool : List Emergency) (maxD : ℚ),
      maxD ≠ 0 → (∀ em ∈ pool, ¬(em.quantity = 0 ∧ r.quantity = 0)) →
      (matchEmergenciesToResource calcDist r pool maxD).Pairwise
        (fun a b => JNum.gtB b.matchScore a.matchScore = false)) := by
  constructor
  · intro calcDist e pool maxD hmd hq
    unfold matchResourcesToEmergency
    split_ifs with h100
    · simp
    · dsimp only
      refine pairwise_sortByScoreDesc ?_
      intro y hy
      obtain ⟨r, hr, hmk⟩ := List.mem_filterMap.1 hy
      obtain ⟨n, hn, -, -⟩ :=
        mkRMatch_score hmd (hq r (List.mem_filter.1 hr).1) hmk
      exact ⟨n, hn⟩
  · intro calcDist r pool maxD hmd hq
    have main : (matchEmergenciesToResourceMain calcDist r pool maxD).Pairwise
        (fun a b => JNum.gtB b.matchScore a.matchScore = false) := by
      unfold matchEmergenciesToResourceMain
      dsimp only
      refine pairwise_sortByScoreDesc ?_
      intro y hy
      obtain ⟨em, hem, hmk⟩ := List.mem_filterMap.1 hy
      obtain ⟨n, hn, -, -⟩ :=
        mkEMatch_score hmd (hq em (List.mem_filter.1 hem).1) hmk
      exact ⟨n, hn⟩
    cases pool with
    | nil => exact main
    | cons e0 rest =>
      unfold matchEmergenciesToResource
      simp only [List.head?]
      split_ifs with hmock
      · simp
      · exact main

/-- **C3** witness: the two-resource pool of the counterexample also
instantiates the amended theorem — the output is descending-sorted. -/
theorem c3_witness :
    ((50 : ℚ) ≠ 0 ∧
      (∀ r ∈ [(⟨some "ra", "u", none, "water", "available", 4, ⟨(0, 25)⟩, []⟩ :
          Resource),
        ⟨some "rb", "u", none, "water", "available", 1, ⟨(0, 0)⟩, []⟩],
        ¬(r.quantity = 0 ∧ (4 : ℚ) = 0))) ∧
    (matchResourcesToEmergency (fun _ _ rlat _ => rlat)
      ⟨"e1", "u", none, "water", "active", "high", 4, ⟨(0, 0)⟩, [], []⟩
      [⟨some "ra", "u", none, "water", "available", 4, ⟨(0, 25)⟩, []⟩,
       ⟨some "rb", "u", none, "water", "available", 1, ⟨(0, 0)⟩, []⟩]
      50).Pairwise (fun a b => JNum.gtB b.matchScore a.matchScore = false) := by
  refine ⟨⟨by norm_num, by intro r hr; norm_num⟩, ?_⟩
  refine c3_sorted_descending.1 _ _ _ _ (by norm_num) ?_
  intro r hr
  norm_num

/-- **C3** counterexample: two candidates tie at score 70; the output
keeps them in pool order — the first returned entry is at distance 25 and
the second at distance 0, violating the claimed ascending-by-distance
tie-break. -/
theorem c3_counterexample :
    ((matchResourcesToEmergency (fun _ _ rlat _ => rlat)
      ⟨"e1", "u", none, "water", "active", "high", 4, ⟨(0, 0)⟩, [], []⟩
      [⟨some "ra", "u", none, "water", "available", 4, ⟨(0, 25)⟩, []⟩,
       ⟨some "rb", "u", none, "water", "available", 1, ⟨(0, 0)⟩, []⟩] 50).map
      (fun m => (m.distance, m.matchScore))) =
      [(25, .num 70), (0, .num 70)] ∧ (25 : ℚ) > 0 := by
  constructor
  · norm_num [matchResourcesToEmergency, mkRMatch, distanceScore,
      quantityScoreTerm, JNum.jdiv, JNum.jmulC, JNum.jsubC, JNum.jadd,
      JNum.jminC, JNum.jmaxC, JNum.jround, sortByScoreDesc, insertDesc,
      JNum.gtB, List.filter, List.filterMap, List.foldr]
  · norm_num

/-- **C9** (amended): for a non-negative haversine core value, the
returned distance is non-negative and is an integer number of hundredths
— i.e. the *returned* value is already rounded to 2 decimal places; it is
this rounded value (not the full-precision one) that callers compare
against `maxDistance` (see the counterexample). -/
theorem c9_distance_rounded (raw : ℚ) (h : 0 ≤ raw) :
    0 ≤ calculateDistance raw ∧ ∃ n : ℤ, calculateDistance raw = n / 100 := by
  constructor
  · unfold calculateDistance round2
    have hf : (0 : ℤ) ≤ ⌊raw * 100 + 1/2⌋ :=
      Int.le_floor.2 (by push_cast; nlinarith)
    exact div_nonneg (by exact_mod_cast hf) (by norm_num)
  · exact ⟨⌊raw * 100 + 1/2⌋, rfl⟩

/-- **C9** witness: a core value of 10 km. -/
theorem c9_witness :
    (0 : ℚ) ≤ 10 ∧
      (0 ≤ calculateDistance 10 ∧ ∃ n : ℤ, calculateDistance 10 = n / 100) :=
  ⟨by norm_num, c9_distance_rounded 10 (by norm_num)⟩

/-- **C9** counterexample: a raw haversine distance of 50.004 km rounds
to 50.00; a candidate at that true distance passes the 50 km cutoff (the
comparison uses the rounded return value), so full precision is *not*
kept internally for comparisons. -/
theorem c9_counterexample :
    calculateDistance (50 + 1/250) = 50 ∧ (50 + 1/250 : ℚ) > 50 ∧
    ((matchResourcesToEmergency (fun _ _ _ _ => calculateDistance (50 + 1/250))
        ⟨"e1", "u", none, "water", "active", "high", 10, ⟨(0, 0)⟩, [], []⟩
        [⟨some "r9", "u", none, "water", "available", 10, ⟨(0, 0)⟩, []⟩] 50).map
      (fun m => m.distance)) = [50] := by
  have hcd : calculateDistance (50 + 1/250) = 50 := by
    norm_num [calculateDistance, round2]
  refine ⟨hcd, by norm_num, ?_⟩
  rw [show (fun (_ _ _ _ : ℚ) => calculateDistance (50 + 1/250)) =
      (fun _ _ _ _ => (50 : ℚ)) by funext a b c d; rw [hcd]]
  norm_num [matchResourcesToEmergency, mkRMatch, distanceScore,
    quantityScoreTerm, JNum.jdiv, JNum.jmulC, JNum.jsubC, JNum.jadd,
    JNum.jminC, JNum.jmaxC, JNum.jround, sortByScoreDesc, insertDesc,
    JNum.gtB, List.filter, List.filterMap, List.foldr]

/-- **C7** (confirmed): `deliver` on a match whose resource-side entry is
still `pending` fails with the transition-rejection error and performs no
state change: the resource document (its `status` and both `MatchRef`
lists) and the emergency document (including `resourcesNeeded`) are
returned exactly as they were. -/
theorem c7_deliver_from_pending_fails (u : UserCtx) (r : Resource)
    (eOpt : Option Emergency) (resourceId emergencyId : String)
    (em : MatchedEmergencyRef)
    (hauth : resourceAuthFails r u = false)
    (hfind : r.matchedEmergencies.find? (fun m => m.emergency == emergencyId) =
      some em)
    (hst : em.status = "pending") :
    markResourceDelivered u resourceId emergencyId (some r) eOpt =
      ⟨some "Emergency is not matched or accepted with this resource", eOpt,
        some r⟩ := by
  simp only [markResourceDelivered, hauth, Bool.false_eq_true, if_false, hfind]
  rw [if_pos (by rw [hst]; decide)]

/-- **C7** witness: a resource whose only match for `"e1"` is `pending`;
`deliver` errors and returns the documents unchanged. -/
theorem c7_witness :
    (resourceAuthFails
        ⟨some "r1", "u", none, "water", "available", 5, ⟨(0, 0)⟩,
          [⟨"e1", "pending", .num 70⟩]⟩ ⟨"u", "user"⟩ = false ∧
      ([(⟨"e1", "pending", .num 70⟩ : MatchedEmergencyRef)].find?
        (fun m => m.emergency == "e1") = some ⟨"e1", "pending", .num 70⟩) ∧
      ("pending" : String) = "pending") ∧
    markResourceDelivered ⟨"u", "user"⟩ "r1" "e1"
        (some ⟨some "r1", "u", none, "water", "available", 5, ⟨(0, 0)⟩,
          [⟨"e1", "pending", .num 70⟩]⟩)
        (some ⟨"e1", "u", none, "water", "active", "high", 10, ⟨(0, 0)⟩,
          [⟨"water", 10, false⟩], [⟨"r1", "pending", .num 70⟩]⟩) =
      ⟨some "Emergency is not matched or accepted with this resource",
        some ⟨"e1", "u", none, "water", "active", "high", 10, ⟨(0, 0)⟩,
          [⟨"water", 10, false⟩], [⟨"r1", "pending", .num 70⟩]⟩,
        some ⟨some "r1", "u", none, "water", "available", 5, ⟨(0, 0)⟩,
          [⟨"e1", "pending", .num 70⟩]⟩⟩ :=
  ⟨⟨by decide, by decide, rfl⟩,
    c7_deliver_from_pending_fails ⟨"u", "user"⟩
      ⟨some "r1", "u", none, "water", "available", 5, ⟨(0, 0)⟩,
        [⟨"e1", "pending", .num 70⟩]⟩
      (some ⟨"e1", "u", none, "water", "active", "high", 10, ⟨(0, 0)⟩,
        [⟨"water", 10, false⟩], [⟨"r1", "pending", .num 70⟩]⟩)
      "r1" "e1" ⟨"e1", "pending", .num 70⟩ (by decide) (by decide) rfl⟩

/-- **C1** (amended): mirror agreement is *not* an invariant of all
operation sequences — ranking writes only the emergency-side copy and
`reject` updates only the emergency-side copy (see the counterexample) —
but a successful `accept` on a pair whose resource holds no prior entry
for the emergency does establish agreement: afterwards both copies carry
status `accepted` and the same `matchScore`. -/
theorem c1_accept_aligns_mirrors (u : UserCtx) (e : Emergency) (r : Resource)
    (rid : String) (rm : MatchedResourceRef)
    (hauth : emergencyAuthFails e u = false)
    (hfind : e.matchedResources.find? (fun m => m.resource == rid) = some rm)
    (hnone : r.matchedEmergencies.find? (fun m => m.emergency == e.mongoId) =
      none) :
    ∃ e1 r1,
      updateMatchStatus u "accept" rid (some e) (some r) =
        ⟨none, some e1, some r1⟩ ∧
      e1.matchedResources.find? (fun m => m.resource == rid) =
        some ⟨rid, "accepted", rm.matchScore⟩ ∧
      r1.matchedEmergencies.find? (fun m => m.emergency == e.mongoId) =
        some ⟨e.mongoId, "accepted", rm.matchScore⟩ := by
  obtain ⟨rmr, rmst, rmsc⟩ := rm
  have hrm : rmr = rid := by simpa using find?_props hfind
  subst hrm
  refine ⟨{ e with matchedResources := (updateFirst (fun m => m.resource == rmr)
      (fun m => { m with status := "accepted" }) e.matchedResources) },
    { r with status := "reserved", matchedEmergencies :=
      (r.matchedEmergencies ++ [⟨e.mongoId, "accepted", rmsc⟩]) }, ?_, ?_, ?_⟩
  · simp [updateMatchStatus, hauth, hfind]
  · exact find?_updateFirst hfind (by simp)
  · rw [find?_append_none hnone]
    exact List.find?_cons_of_pos _ (by simp)

/-- **C1** counterexample: the reachable sequence rank → accept → reject
leaves the emergency-side copy `rejected` while the resource-side copy
stays `accepted` — the two mirrored `MatchRef`s disagree on status. -/
theorem c1_counterexample :
    ((updateMatchStatus ⟨"boss", "admin"⟩ "reject" "res9"
        (updateMatchStatus ⟨"boss", "admin"⟩ "accept" "res9"
          (matchResourcesForEmergencyCtrl (fun _ _ _ _ => 0) ⟨"boss", "admin"⟩
            (some ⟨"e1", "owner", none, "water", "active", "high", 10, ⟨(0, 0)⟩,
              [⟨"water", 10, false⟩], []⟩)
            [⟨some "res9", "owner", none, "water", "available", 10, ⟨(0, 0)⟩,
              []⟩]).emergency
          (some ⟨some "res9", "owner", none, "water", "available", 10, ⟨(0, 0)⟩,
            []⟩)).emergency
        (updateMatchStatus ⟨"boss", "admin"⟩ "accept" "res9"
          (matchResourcesForEmergencyCtrl (fun _ _ _ _ => 0) ⟨"boss", "admin"⟩
            (some ⟨"e1", "owner", none, "water", "active", "high", 10, ⟨(0, 0)⟩,
              [⟨"water", 10, false⟩], []⟩)
            [⟨some "res9", "owner", none, "water", "available", 10, ⟨(0, 0)⟩,
              []⟩]).emergency
          (some ⟨some "res9", "owner", none, "water", "available", 10, ⟨(0, 0)⟩,
            []⟩)).resource).emergency.map
      (fun e => e.matchedResources.map MatchedResourceRef.status) =
        some ["rejected"]) ∧
    ((updateMatchStatus ⟨"boss", "admin"⟩ "accept" "res9"
        (matchResourcesForEmergencyCtrl (fun _ _ _ _ => 0) ⟨"boss", "admin"⟩
          (some ⟨"e1", "owner", none, "water", "active", "high", 10, ⟨(0, 0)⟩,
            [⟨"water", 10, false⟩], []⟩)
          [⟨some "res9", "owner", none, "water", "available", 10, ⟨(0, 0)⟩,
            []⟩]).emergency
        (some ⟨some "res9", "owner", none, "water", "available", 10, ⟨(0, 0)⟩,
          []⟩)).resource.map
      (fun r => r.matchedEmergencies.map MatchedEmergencyRef.status) =
        some ["accepted"]) := by
  have h1 : matchResourcesForEmergencyCtrl (fun _ _ _ _ => 0) ⟨"boss", "admin"⟩
      (some ⟨"e1", "owner", none, "water", "active", "high", 10, ⟨(0, 0)⟩,
        [⟨"water", 10, false⟩], []⟩)
      [⟨some "res9", "owner", none, "water", "available", 10, ⟨(0, 0)⟩, []⟩] =
      ⟨none, some ⟨"e1", "owner", none, "water", "active", "high", 10, ⟨(0, 0)⟩,
        [⟨"water", 10, false⟩], [⟨"res9", "pending", .num 100⟩]⟩, none⟩ := by
    norm_num [matchResourcesForEmergencyCtrl, emergencyAuthFails,
      matchResourcesToEmergency, mkRMatch, distanceScore, quantityScoreTerm,
      JNum.jdiv, JNum.jmulC, JNum.jsubC, JNum.jadd, JNum.jminC, JNum.jmaxC,
      JNum.jround, sortByScoreDesc, insertDesc, JNum.gtB, List.filter,
      List.filterMap, List.foldr]
  rw [h1]
  dsimp only
  have h2 : updateMatchStatus ⟨"boss", "admin"⟩ "accept" "res9"
      (some ⟨"e1", "owner", none, "water", "active", "high", 10, ⟨(0, 0)⟩,
        [⟨"water", 10, false⟩], [⟨"res9", "pending", .num 100⟩]⟩)
      (some ⟨some "res9", "owner", none, "water", "available", 10, ⟨(0, 0)⟩,
        []⟩) =
      ⟨none, some ⟨"e1", "owner", none, "water", "active", "high", 10, ⟨(0, 0)⟩,
        [⟨"water", 10, false⟩], [⟨"res9", "accepted", .num 100⟩]⟩,
       some ⟨some "res9", "owner", none, "water", "reserved", 10, ⟨(0, 0)⟩,
        [⟨"e1", "accepted", .num 100⟩]⟩⟩ := by
    simp [updateMatchStatus, emergencyAuthFails, updateFirst, List.find?]
  rw [h2]
  dsimp only
  have h3 : updateMatchStatus ⟨"boss", "admin"⟩ "reject" "res9"
      (some ⟨"e1", "owner", none, "water", "active", "high", 10, ⟨(0, 0)⟩,
        [⟨"water", 10, false⟩], [⟨"res9", "accepted", .num 100⟩]⟩)
      (some ⟨some "res9", "owner", none, "water", "reserved", 10, ⟨(0, 0)⟩,
        [⟨"e1", "accepted", .num 100⟩]⟩) =
      ⟨none, some ⟨"e1", "owner", none, "water", "active", "high", 10, ⟨(0, 0)⟩,
        [⟨"water", 10, false⟩], [⟨"res9", "rejected", .num 100⟩]⟩,
       some ⟨some "res9", "owner", none, "water", "reserved", 10, ⟨(0, 0)⟩,
        [⟨"e1", "accepted", .num 100⟩]⟩⟩ := by
    simp [updateMatchStatus, emergencyAuthFails, updateFirst, List.find?]
  rw [h3]
  exact ⟨rfl, rfl⟩

/-- **C1** witness: the accept-aligns theorem applied to a concrete
pending pair. -/
theorem c1_witness :
    (emergencyAuthFails
        ⟨"e1", "owner", none, "water", "active", "high", 10, ⟨(0, 0)⟩, [],
          [⟨"res9", "pending", .num 88⟩]⟩ ⟨"owner", "user"⟩ = false ∧
      ([(⟨"res9", "pending", .num 88⟩ : MatchedResourceRef)].find?
        (fun m => m.resource == "res9") = some ⟨"res9", "pending", .num 88⟩) ∧
      (([] : List MatchedEmergencyRef).find?
        (fun m => m.emergency == "e1") = none)) ∧
    (∃ e1 r1,
      updateMatchStatus ⟨"owner", "user"⟩ "accept" "res9"
          (some ⟨"e1", "owner", none, "water", "active", "high", 10, ⟨(0, 0)⟩,
            [], [⟨"res9", "pending", .num 88⟩]⟩)
          (some ⟨some "res9", "owner", none, "water", "available", 10, ⟨(0, 0)⟩,
            []⟩) =
        ⟨none, some e1, some r1⟩ ∧
      e1.matchedResources.find? (fun m => m.resource == "res9") =
        some ⟨"res9", "accepted", .num 88⟩ ∧
      r1.matchedEmergencies.find? (fun m => m.emergency == "e1") =
        some ⟨"e1", "accepted", .num 88⟩) :=
  ⟨⟨by decide, by decide, rfl⟩,
    c1_accept_aligns_mirrors ⟨"owner", "user"⟩
      ⟨"e1", "owner", none, "water", "active", "high", 10, ⟨(0, 0)⟩, [],
        [⟨"res9", "pending", .num 88⟩]⟩
      ⟨some "res9", "owner", none, "water", "available", 10, ⟨(0, 0)⟩, []⟩
      "res9" ⟨"res9", "pending", .num 88⟩ (by decide) (by decide) rfl⟩

/-- **C2** (amended): `accept` and `reject` succeed whenever the caller
is authorized and a match entry exists, *regardless of the entry's
current status* — there is no pending-only guard and no
`InvalidTransition`-style error; a repeated `accept` performs the update
again, appending one more `accepted` entry to the resource.  (Only
`deliver` checks state; see C7.) -/
theorem c2_accept_reject_ignore_state (u : UserCtx) (e : Emergency)
    (r : Resource) (rid action : String) (rm : MatchedResourceRef)
    (hact : action = "accept" ∨ action = "reject")
    (hauth : emergencyAuthFails e u = false)
    (hfind : e.matchedResources.find? (fun m => m.resource == rid) = some rm) :
    (updateMatchStatus u action rid (some e) (some r)).error = none ∧
    (action = "accept" →
      (updateMatchStatus u action rid (some e) (some r)).resource =
        some { r with status := "reserved", matchedEmergencies :=
          (r.matchedEmergencies ++ [⟨e.mongoId, "accepted", rm.matchScore⟩]) }) := by
  rcases hact with hact | hact <;> subst hact
  · constructor
    · simp [updateMatchStatus, hauth, hfind]
    · intro
      simp [updateMatchStatus, hauth, hfind]
  · constructor
    · simp [updateMatchStatus, hauth, hfind]
    · intro hcontra
      exact absurd hcontra (by decide)

/-- **C2** witness: `accept` invoked on a match that is already in the
*terminal* state `delivered` still succeeds and re-appends an accepted
entry. -/
theorem c2_witness :
    ((("accept" : String) = "accept" ∨ ("accept" : String) = "reject") ∧
      emergencyAuthFails
        ⟨"e1", "u", none, "water", "active", "high", 10, ⟨(0, 0)⟩, [],
          [⟨"r1", "delivered", .num 70⟩]⟩ ⟨"u", "user"⟩ = false ∧
      ([(⟨"r1", "delivered", .num 70⟩ : MatchedResourceRef)].find?
        (fun m => m.resource == "r1") = some ⟨"r1", "delivered", .num 70⟩)) ∧
    ((updateMatchStatus ⟨"u", "user"⟩ "accept" "r1"
        (some ⟨"e1", "u", none, "water", "active", "high", 10, ⟨(0, 0)⟩, [],
          [⟨"r1", "delivered", .num 70⟩]⟩)
        (some ⟨some "r1", "u", none, "water", "delivered", 5, ⟨(0, 0)⟩,
          [⟨"e1", "delivered", .num 70⟩]⟩)).error = none ∧
      (("accept" : String) = "accept" →
        (updateMatchStatus ⟨"u", "user"⟩ "accept" "r1"
          (some ⟨"e1", "u", none, "water", "active", "high", 10, ⟨(0, 0)⟩, [],
            [⟨"r1", "delivered", .num 70⟩]⟩)
          (some ⟨some "r1", "u", none, "water", "delivered", 5, ⟨(0, 0)⟩,
            [⟨"e1", "delivered", .num 70⟩]⟩)).resource =
          some { (⟨some "r1", "u", none, "water", "delivered", 5, ⟨(0, 0)⟩,
            [⟨"e1", "delivered", .num 70⟩]⟩ : Resource) with
            status := "reserved", matchedEmergencies :=
            ([⟨"e1", "delivered", .num 70⟩] ++
              [⟨"e1", "accepted", .num 70⟩]) })) :=
  ⟨⟨Or.inl rfl, by decide, by decide⟩,
    c2_accept_reject_ignore_state ⟨"u", "user"⟩
      ⟨"e1", "u", none, "water", "active", "high", 10, ⟨(0, 0)⟩, [],
        [⟨"r1", "delivered", .num 70⟩]⟩
      ⟨some "r1", "u", none, "water", "delivered", 5, ⟨(0, 0)⟩,
        [⟨"e1", "delivered", .num 70⟩]⟩
      "r1" "accept" ⟨"r1", "delivered", .num 70⟩ (Or.inl rfl) (by decide)
      (by decide)⟩

/-- **C2** counterexample: `accept` on a match already `accepted`
succeeds (no `InvalidTransition`) and changes state — the resource is
re-reserved and a duplicate accepted entry is pushed. -/
theorem c2_counterexample :
    (updateMatchStatus ⟨"u", "user"⟩ "accept" "r1"
        (some ⟨"e1", "u", none, "water", "active", "high", 10, ⟨(0, 0)⟩, [],
          [⟨"r1", "accepted", .num 70⟩]⟩)
        (some ⟨some "r1", "u", none, "water", "reserved", 5, ⟨(0, 0)⟩,
          [⟨"e1", "accepted", .num 70⟩]⟩)).error = none ∧
    (updateMatchStatus ⟨"u", "user"⟩ "accept" "r1"
        (some ⟨"e1", "u", none, "water", "active", "high", 10, ⟨(0, 0)⟩, [],
          [⟨"r1", "accepted", .num 70⟩]⟩)
        (some ⟨some "r1", "u", none, "water", "reserved", 5, ⟨(0, 0)⟩,
          [⟨"e1", "accepted", .num 70⟩]⟩)).resource.map
      (fun r => r.matchedEmergencies.map MatchedEmergencyRef.status) =
      some ["accepted", "accepted"] := by
  constructor
  · simp [updateMatchStatus, emergencyAuthFails, List.find?]
  · simp [updateMatchStatus, emergencyAuthFails, List.find?]

/-- Closed form of a successful `accept`: the emergency-side entry is
set to `accepted`, the resource is reserved and gains an `accepted`
mirror entry carrying the found match's score. -/
theorem updateMatchStatus_accept_eq (u : UserCtx) (e : Emergency)
    (r : Resource) (rid : String) (rm : MatchedResourceRef)
    (hauth : emergencyAuthFails e u = false)
    (hfind : e.matchedResources.find? (fun m => m.resource == rid) = some rm) :
    updateMatchStatus u "accept" rid (some e) (some r) =
      ⟨none,
        some { e with matchedResources :=
          (updateFirst (fun m => m.resource == rid)
            (fun m => { m with status := "accepted" }) e.matchedResources) },
        some { r with status := "reserved", matchedEmergencies :=
          (r.matchedEmergencies ++ [⟨e.mongoId, "accepted", rm.matchScore⟩]) }⟩ := by
  simp [updateMatchStatus, hauth, hfind]

/-- Closed form of a successful `deliver` from a resource-side
`accepted` entry, when the emergency exists and carries an entry for the
resource. -/
theorem markResourceDelivered_accepted_eq (u : UserCtx) (r : Resource)
    (e : Emergency) (rid eid : String) (em : MatchedEmergencyRef)
    (rm : MatchedResourceRef)
    (hauth : resourceAuthFails r u = false)
    (hfind : r.matchedEmergencies.find? (fun m => m.emergency == eid) = some em)
    (hst : em.status = "accepted")
    (hfe : e.matchedResources.find? (fun m => m.resource == rid) = some rm) :
    markResourceDelivered u rid eid (some r) (some e) =
      ⟨none,
        some { e with
          matchedResources := (updateFirst (fun m => m.resource == rid)
            (fun m => { m with status := "delivered" }) e.matchedResources),
          resourcesNeeded := (updateFirst
            (fun n => n.type == r.type && !n.fulfilled)
            (fun n => { n with fulfilled := true }) e.resourcesNeeded) },
        some { r with
          status := "delivered",
          matchedEmergencies := (updateFirst (fun m => m.emergency == eid)
            (fun m => { m with status := "delivered" })
            r.matchedEmergencies) }⟩ := by
  simp [markResourceDelivered, hauth, hfind, hst, hfe]

/-- **C8** (confirmed): starting from the state `propose` creates (an
emergency-side `pending` entry with score `s`, no resource-side entry),
`accept` then `deliver` both succeed and leave both mirrored `MatchRef`
copies at status `delivered` with the identical `matchScore` `s`. -/
theorem c8_propose_accept_deliver_round_trip (u : UserCtx) (e : Emergency)
    (r : Resource) (rid : String) (s : JNum)
    (hrole : u.role = "admin")
    (hfind : e.matchedResources.find? (fun m => m.resource == rid) =
      some ⟨rid, "pending", s⟩)
    (hnone : r.matchedEmergencies.find? (fun m => m.emergency == e.mongoId) =
      none) :
    ∃ e1 r1 e2 r2,
      updateMatchStatus u "accept" rid (some e) (some r) =
        ⟨none, some e1, some r1⟩ ∧
      markResourceDelivered u rid e.mongoId (some r1) (some e1) =
        ⟨none, some e2, some r2⟩ ∧
      e2.matchedResources.find? (fun m => m.resource == rid) =
        some ⟨rid, "delivered", s⟩ ∧
      r2.matchedEmergencies.find? (fun m => m.emergency == e.mongoId) =
        some ⟨e.mongoId, "delivered", s⟩ := by
  have hauth : emergencyAuthFails e u = false := by
    simp [emergencyAuthFails, hrole]
  have hrauth : ∀ rr : Resource, resourceAuthFails rr u = false := by
    intro rr
    simp [resourceAuthFails, hrole]
  have hfe1 : (updateFirst (fun m => m.resource == rid)
      (fun m => { m with status := "accepted" }) e.matchedResources).find?
      (fun m => m.resource == rid) = some ⟨rid, "accepted", s⟩ :=
    find?_updateFirst hfind (by simp)
  have hfr1 : (r.matchedEmergencies ++
      [(⟨e.mongoId, "accepted", s⟩ : MatchedEmergencyRef)]).find?
      (fun m => m.emergency == e.mongoId) = some ⟨e.mongoId, "accepted", s⟩ := by
    rw [find?_append_none hnone]
    exact List.find?_cons_of_pos _ (by simp)
  have hstep1 := updateMatchStatus_accept_eq u e r rid ⟨rid, "pending", s⟩
    hauth hfind
  have hstep2 := markResourceDelivered_accepted_eq u
    { r with status := "reserved", matchedEmergencies :=
      (r.matchedEmergencies ++ [⟨e.mongoId, "accepted", s⟩]) }
    { e with matchedResources := (updateFirst (fun m => m.resource == rid)
      (fun m => { m with status := "accepted" }) e.matchedResources) }
    rid e.mongoId ⟨e.mongoId, "accepted", s⟩ ⟨rid, "accepted", s⟩
    (hrauth _) hfr1 rfl hfe1
  refine ⟨_, _, _, _, hstep1, hstep2, ?_, ?_⟩
  · exact find?_updateFirst hfe1 (by simp)
  · show (updateFirst (fun m => m.emergency == e.mongoId)
      (fun m => { m with status := "delivered" })
      (r.matchedEmergencies ++ [⟨e.mongoId, "accepted", s⟩])).find?
      (fun m => m.emergency == e.mongoId) = _
    rw [updateFirst_append_none hnone]
    rw [find?_append_none hnone]
    simp [updateFirst, List.find?]

/-- **C8** witness: a concrete pending pair with score 88 taken through
accept then deliver. -/
theorem c8_witness :
    ((("admin" : String) = "admin") ∧
      ([(⟨"res9", "pending", .num 88⟩ : MatchedResourceRef)].find?
        (fun m => m.resource == "res9") = some ⟨"res9", "pending", .num 88⟩) ∧
      (([] : List MatchedEmergencyRef).find?
        (fun m => m.emergency == "e1") = none)) ∧
    (∃ e1 r1 e2 r2,
      updateMatchStatus ⟨"boss", "admin"⟩ "accept" "res9"
          (some ⟨"e1", "owner", none, "water", "active", "high", 10, ⟨(0, 0)⟩,
            [⟨"water", 10, false⟩], [⟨"res9", "pending", .num 88⟩]⟩)
          (some ⟨some "res9", "owner", none, "water", "available", 10, ⟨(0, 0)⟩,
            []⟩) =
        ⟨none, some e1, some r1⟩ ∧
      markResourceDelivered ⟨"boss", "admin"⟩ "res9" "e1" (some r1) (some e1) =
        ⟨none, some e2, some r2⟩ ∧
      e2.matchedResources.find? (fun m => m.resource == "res9") =
        some ⟨"res9", "delivered", .num 88⟩ ∧
      r2.matchedEmergencies.find? (fun m => m.emergency == "e1") =
        some ⟨"e1", "delivered", .num 88⟩) :=
  ⟨⟨rfl, by decide, rfl⟩,
    c8_propose_accept_deliver_round_trip ⟨"boss", "admin"⟩
      ⟨"e1", "owner", none, "water", "active", "high", 10, ⟨(0, 0)⟩,
        [⟨"water", 10, false⟩], [⟨"res9", "pending", .num 88⟩]⟩
      ⟨some "res9", "owner", none, "water", "available", 10, ⟨(0, 0)⟩, []⟩
      "res9" (.num 88) rfl (by decide) rfl⟩

/-- **C10** (amended): the transition takes no lock and checks no state:
two `accept` calls on the same pending match — even fully serialized, the
most favourable schedule — *both* succeed; `Resource.status` is set to
`reserved` by each call and the resource accumulates one duplicate
`accepted` MatchRef per call, so the mirrored writes are not protected by
any `(emergencyId, resourceId)`-scoped mutual exclusion. -/
theorem c10_serialized_double_accept (u : UserCtx) (e : Emergency)
    (r : Resource) (rid : String) (rm : MatchedResourceRef)
    (hauth : emergencyAuthFails e u = false)
    (hfind : e.matchedResources.find? (fun m => m.resource == rid) = some rm) :
    ∃ e1 r1 e2 r2,
      updateMatchStatus u "accept" rid (some e) (some r) =
        ⟨none, some e1, some r1⟩ ∧
      updateMatchStatus u "accept" rid (some e1) (some r1) =
        ⟨none, some e2, some r2⟩ ∧
      r2.status = "reserved" ∧
      r2.matchedEmergencies = r.matchedEmergencies ++
        [⟨e.mongoId, "accepted", rm.matchScore⟩,
         ⟨e.mongoId, "accepted", rm.matchScore⟩] := by
  have hfe1 : (updateFirst (fun m => m.resource == rid)
      (fun m => { m with status := "accepted" }) e.matchedResources).find?
      (fun m => m.resource == rid) =
      some { rm with status := "accepted" } :=
    find?_updateFirst hfind (by simpa using find?_props hfind)
  have hstep1 := updateMatchStatus_accept_eq u e r rid rm hauth hfind
  have hstep2 := updateMatchStatus_accept_eq u
    { e with matchedResources := (updateFirst (fun m => m.resource == rid)
      (fun m => { m with status := "accepted" }) e.matchedResources) }
    { r with status := "reserved", matchedEmergencies :=
      (r.matchedEmergencies ++ [⟨e.mongoId, "accepted", rm.matchScore⟩]) }
    rid { rm with status := "accepted" } hauth hfe1
  refine ⟨_, _, _, _, hstep1, hstep2, rfl, ?_⟩
  show (r.matchedEmergencies ++ [⟨e.mongoId, "accepted", rm.matchScore⟩]) ++
      [⟨e.mongoId, "accepted", rm.matchScore⟩] = _
  simp

/-- **C10** witness: a concrete pending match double-accepted. -/
theorem c10_witness :
    (emergencyAuthFails
        ⟨"e1", "u", none, "water", "active", "high", 10, ⟨(0, 0)⟩, [],
          [⟨"r1", "pending", .num 70⟩]⟩ ⟨"u", "user"⟩ = false ∧
      ([(⟨"r1", "pending", .num 70⟩ : MatchedResourceRef)].find?
        (fun m => m.resource == "r1") = some ⟨"r1", "pending", .num 70⟩)) ∧
    (∃ e1 r1 e2 r2,
      updateMatchStatus ⟨"u", "user"⟩ "accept" "r1"
          (some ⟨"e1", "u", none, "water", "active", "high", 10, ⟨(0, 0)⟩, [],
            [⟨"r1", "pending", .num 70⟩]⟩)
          (some ⟨some "r1", "u", none, "water", "available", 5, ⟨(0, 0)⟩, []⟩) =
        ⟨none, some e1, some r1⟩ ∧
      updateMatchStatus ⟨"u", "user"⟩ "accept" "r1" (some e1) (some r1) =
        ⟨none, some e2, some r2⟩ ∧
      r2.status = "reserved" ∧
      r2.matchedEmergencies = [] ++
        [⟨"e1", "accepted", .num 70⟩, ⟨"e1", "accepted", .num 70⟩]) :=
  ⟨⟨by decide, by decide⟩,
    c10_serialized_double_accept ⟨"u", "user"⟩
      ⟨"e1", "u", none, "water", "active", "high", 10, ⟨(0, 0)⟩, [],
        [⟨"r1", "pending", .num 70⟩]⟩
      ⟨some "r1", "u", none, "water", "available", 5, ⟨(0, 0)⟩, []⟩
      "r1" ⟨"r1", "pending", .num 70⟩ (by decide) (by decide)⟩

/-- **C10** counterexample: with the match pending and two serialized
`accept` calls, *both* return success — not "exactly one success and one
failure" as claimed. -/
theorem c10_counterexample :
    (updateMatchStatus ⟨"u", "user"⟩ "accept" "r1"
        (some ⟨"e1", "u", none, "water", "active", "high", 10, ⟨(0, 0)⟩, [],
          [⟨"r1", "pending", .num 70⟩]⟩)
        (some ⟨some "r1", "u", none, "water", "available", 5, ⟨(0, 0)⟩,
          []⟩)).error = none ∧
    (updateMatchStatus ⟨"u", "user"⟩ "accept" "r1"
        (updateMatchStatus ⟨"u", "user"⟩ "accept" "r1"
          (some ⟨"e1", "u", none, "water", "active", "high", 10, ⟨(0, 0)⟩, [],
            [⟨"r1", "pending", .num 70⟩]⟩)
          (some ⟨some "r1", "u", none, "water", "available", 5, ⟨(0, 0)⟩,
            []⟩)).emergency
        (updateMatchStatus ⟨"u", "user"⟩ "accept" "r1"
          (some ⟨"e1", "u", none, "water", "active", "high", 10, ⟨(0, 0)⟩, [],
            [⟨"r1", "pending", .num 70⟩]⟩)
          (some ⟨some "r1", "u", none, "water", "available", 5, ⟨(0, 0)⟩,
            []⟩)).resource).error = none := by
  have h1 : updateMatchStatus ⟨"u", "user"⟩ "accept" "r1"
      (some ⟨"e1", "u", none, "water", "active", "high", 10, ⟨(0, 0)⟩, [],
        [⟨"r1", "pending", .num 70⟩]⟩)
      (some ⟨some "r1", "u", none, "water", "available", 5, ⟨(0, 0)⟩, []⟩) =
      ⟨none, some ⟨"e1", "u", none, "water", "active", "high", 10, ⟨(0, 0)⟩, [],
        [⟨"r1", "accepted", .num 70⟩]⟩,
       some ⟨some "r1", "u", none, "water", "reserved", 5, ⟨(0, 0)⟩,
        [⟨"e1", "accepted", .num 70⟩]⟩⟩ := by
    simp [updateMatchStatus, emergencyAuthFails, updateFirst, List.find?]
  rw [h1]
  dsimp only
  have h2 : updateMatchStatus ⟨"u", "user"⟩ "accept" "r1"
      (some ⟨"e1", "u", none, "water", "active", "high", 10, ⟨(0, 0)⟩, [],
        [⟨"r1", "accepted", .num 70⟩]⟩)
      (some ⟨some "r1", "u", none, "water", "reserved", 5, ⟨(0, 0)⟩,
        [⟨"e1", "accepted", .num 70⟩]⟩) =
      ⟨none, some ⟨"e1", "u", none, "water", "active", "high", 10, ⟨(0, 0)⟩, [],
        [⟨"r1", "accepted", .num 70⟩]⟩,
       some ⟨some "r1", "u", none, "water", "reserved", 5, ⟨(0, 0)⟩,
        [⟨"e1", "accepted", .num 70⟩, ⟨"e1", "accepted", .num 70⟩]⟩⟩ := by
    simp [updateMatchStatus, emergencyAuthFails, updateFirst, List.find?]
  rw [h2]
  exact ⟨rfl, rfl⟩

end DisasterRelief
